import Mathlib

/-!
Verification of the metrics computation pipeline of the bbox analysis module
(source file: src/client/src/utils/script.js).

Shallow embedding conventions:
* JavaScript numbers are modelled as exact rationals; decimal literals of the
  source (0.35, 1e-9, ...) are read as exact decimal fractions.
* JavaScript Math.round rounds half towards positive infinity, which is
  floor (x + 1/2); Number.prototype.toFixed picks the larger candidate on
  ties, which agrees with the same formula.  Both are modelled by jsRound.
* The turf geodesic primitives (length, area) are abstract external
  collaborators: they are passed in as arbitrary function parameters
  (turfLen, turfArea), so every theorem quantifies over them.  turfArea
  models the composition area(bboxPolygon(bbox)) applied to the four
  destructured bbox entries.
* Fallible asynchronous code is modelled with Except; the outcome of the
  i-th network attempt of an Overpass fetch is given by an oracle
  f : Nat -> Except E A.
* The narrative generation step (generateGeminiAnalysis) returns a hardcoded
  report string unconditionally and is outside the claims under
  verification; the model returns the Metrics record.
-/

/-- A JavaScript primitive value, as far as the module manipulates them:
numbers, strings, booleans and null.  Used for the untyped bbox argument and
for feature property values. -/
inductive JsVal where
  | num (q : ℚ)
  | str (s : String)
  | bool (b : Bool)
  | null
deriving DecidableEq

/-- JavaScript truthiness of an optional value (undefined is `none`). -/
def truthy : Option JsVal → Bool
  | none => false
  | some (JsVal.num q) => q != 0
  | some (JsVal.str s) => s != ""
  | some (JsVal.bool b) => b
  | some JsVal.null => false

/-- JavaScript String.prototype.toLowerCase, modelled characterwise. -/
def jsToLowerCase (s : String) : String :=
  String.mk (s.data.map Char.toLower)

/-- Property access on a JavaScript object built as a literal
with possibly repeated keys (later bindings override earlier ones), as in
the spread `{ id: el.id, ...(el.tags || {}) }` of script.js line 56. -/
def objLookup : List (String × JsVal) → String → Option JsVal
  | [], _ => none
  | p :: rest, k =>
    match objLookup rest k with
    | some v => some v
    | none => if p.1 = k then some p.2 else none

/-- Lookup of a key in a raw OSM tag mapping (string to string); when keys
repeat, the later binding wins, matching JavaScript object semantics. -/
def lookupLast : List (String × String) → String → Option String
  | [], _ => none
  | p :: rest, k =>
    match lookupLast rest k with
    | some v => some v
    | none => if p.1 = k then some p.2 else none

/-- The properties object `{ id: el.id, ...(el.tags || {}) }` built for every
converted element (script.js line 56): the element id under key "id",
followed by all tags, which override it on key collision. -/
def mkProps (i : ℤ) (tags : List (String × String)) : List (String × JsVal) :=
  ("id", JsVal.num (i : ℚ)) :: tags.map (fun kv => (kv.1, JsVal.str kv.2))

/-- GeoJSON-style geometry as produced/consumed by the module.  Coordinates
are (lon, lat) pairs. -/
inductive Geometry where
  | point (c : ℚ × ℚ)
  | lineString (coords : List (ℚ × ℚ))
  | multiLineString (lines : List (List (ℚ × ℚ)))
  | polygon (rings : List (List (ℚ × ℚ)))
  | multiPolygon (polys : List (List (List (ℚ × ℚ))))
deriving DecidableEq

/-- A GeoJSON feature: a geometry paired with its properties object. -/
structure Feature where
  geometry : Geometry
  properties : List (String × JsVal)
deriving DecidableEq

/-- A GeoJSON feature collection (insertion ordered). -/
structure FeatureCollection where
  features : List Feature
deriving DecidableEq

/-- The `type` field of a raw OSM element. -/
inductive ElType where
  | node
  | way
  | relation
deriving DecidableEq

/-- One vertex of the `geometry` array of a way, a `{lat, lon}` record. -/
structure OsmPt where
  lat : ℚ
  lon : ℚ
deriving DecidableEq

/-- A raw OSM element of the Overpass JSON payload.  `tags` models
`el.tags || {}` (an absent mapping is the empty list); `geometry` is `some`
exactly when `Array.isArray(el.geometry)` holds; `lon`/`lat` are the node
coordinates. -/
structure OsmElement where
  type : ElType
  id : ℤ
  tags : List (String × String)
  lon : ℚ
  lat : ℚ
  geometry : Option (List OsmPt)
deriving DecidableEq

/-- An Overpass JSON payload; `elements` models `osmJson.elements || []`. -/
structure OsmJson where
  elements : List OsmElement
deriving DecidableEq

/-- Truthiness test `props.building` of script.js line 65. -/
def isBuilding (props : List (String × JsVal)) : Bool :=
  truthy (objLookup props "building")

/-- Conversion of a single raw element (the loop body of `osmToGeoJSON`,
script.js lines 54-73): node to Point; way with a geometry array to a closed
Polygon ring when `props.building` is truthy, otherwise to a LineString;
relations (and ways without a geometry array) are skipped. -/
def convertEl (el : OsmElement) : Option Feature :=
  match el.type with
  | ElType.node => some (Feature.mk (Geometry.point (el.lon, el.lat)) (mkProps el.id el.tags))
  | ElType.way =>
    match el.geometry with
    | some g =>
      let coords := g.map (fun p => (p.lon, p.lat))
      let props := mkProps el.id el.tags
      if isBuilding props then
        some (Feature.mk (Geometry.polygon [coords ++ [coords.headI]]) props)
      else
        some (Feature.mk (Geometry.lineString coords) props)
    | none => none
  | ElType.relation => none

/-- `osmToGeoJSON(osmJson, geomTypes)` (script.js lines 52-75): elements not
in `geomTypes` are skipped, the rest are converted in order.
`coords.headI` models `coords[0]` of line 66, which is only reached through
the pipeline on nonempty way geometries. -/
def osmToGeoJSON (osm : OsmJson) (geomTypes : List ElType) : FeatureCollection :=
  FeatureCollection.mk
    ((osm.elements.filter (fun el => geomTypes.contains el.type)).filterMap convertEl)

/-- `lengthKm(featureCollection)` (script.js lines 77-107), parameterized by
the abstract turf geodesic length `turfLen` (kilometers): sums the length of
LineString/MultiLineString geometries and, for Polygon/MultiPolygon
geometries, the length of the line built from the first ring of each polygon. -/
def lengthKm (turfLen : Geometry → ℚ) (fc : FeatureCollection) : ℚ :=
  if fc.features = [] then 0
  else
    (fc.features.map (fun f =>
      match f.geometry with
      | Geometry.point _ => 0
      | Geometry.lineString c => turfLen (Geometry.lineString c)
      | Geometry.multiLineString ls => turfLen (Geometry.multiLineString ls)
      | Geometry.polygon rings => turfLen (Geometry.lineString rings.headI)
      | Geometry.multiPolygon polys =>
          (polys.map (fun p => turfLen (Geometry.lineString p.headI))).sum)).sum

/-- `pointDensityPerKm2(featureCollection, areaKm2)` (script.js lines
109-112): feature count divided by area, 0 when the area is 0. -/
def pointDensityPerKm2 (fc : FeatureCollection) (areaKm2 : ℚ) : ℚ :=
  if areaKm2 = 0 then 0 else (fc.features.length : ℚ) / areaKm2

/-- JavaScript Math.round: round half towards positive infinity. -/
def jsRound (q : ℚ) : ℤ := ⌊q + 1 / 2⌋

/-- The quantized vertex list of `intersectionDensityPerKm2` (script.js lines
116-133): every vertex of every LineString/MultiLineString, with lon and lat
multiplied by 10000 and rounded; the string key `rx,ry` is modelled as the
integer pair. -/
def quantPts (fc : FeatureCollection) : List (ℤ × ℤ) :=
  (fc.features.map (fun f =>
    match f.geometry with
    | Geometry.lineString coords =>
        coords.map (fun c => (jsRound (c.1 * 10000), jsRound (c.2 * 10000)))
    | Geometry.multiLineString lines =>
        (lines.map (fun line =>
          line.map (fun c => (jsRound (c.1 * 10000), jsRound (c.2 * 10000))))).flatten
    | _ => [])).flatten

/-- The frequency-table step of `intersectionDensityPerKm2` (script.js lines
135-139): the number of distinct quantized cells reached by at least 3
vertices. -/
def countIntersections (pts : List (ℤ × ℤ)) : ℕ :=
  (pts.dedup.filter (fun k => 3 ≤ pts.count k)).length

/-- `intersectionDensityPerKm2(roadsFeatureCollection, areaKm2)` (script.js
lines 114-141). -/
def intersectionDensityPerKm2 (fc : FeatureCollection) (areaKm2 : ℚ) : ℚ :=
  if areaKm2 = 0 then 0
  else if quantPts fc = [] then 0
  else (countIntersections (quantPts fc) : ℚ) / areaKm2

/-- `normClip(x, a, b) = Math.max(0.0, Math.min(1.0, (x - a) / (b - a + 1e-9)))`
(script.js lines 143-145). -/
def normClip (x a b : ℚ) : ℚ :=
  max 0 (min 1 ((x - a) / (b - a + 1e-9)))

/-- The string `(f.properties.amenity || "").toLowerCase()` of script.js
lines 286 and 292.  Tag values in the payload model are strings; any
non-string (absent) amenity property collapses to the empty string. -/
def amenityLower (props : List (String × JsVal)) : String :=
  jsToLowerCase
    (match objLookup props "amenity" with
     | some (JsVal.str s) => s
     | _ => "")

/-- The hospitals FeatureCollection of script.js lines 283-288. -/
def hospitalsOf (fc : FeatureCollection) : FeatureCollection :=
  FeatureCollection.mk (fc.features.filter (fun f => amenityLower f.properties == "hospital"))

/-- The schools FeatureCollection of script.js lines 289-294. -/
def schoolsOf (fc : FeatureCollection) : FeatureCollection :=
  FeatureCollection.mk (fc.features.filter (fun f => amenityLower f.properties == "school"))

/-- `Number(x.toFixed(d))`: round to d decimal digits, ties towards the
larger candidate, as an exact rational. -/
def toFixed (d : ℕ) (q : ℚ) : ℚ :=
  (jsRound (q * 10 ^ d) : ℚ) / 10 ^ d

/-- The Metrics record returned by `analyzeBBox` (script.js lines 309-319). -/
structure Metrics where
  area_km2 : ℚ
  roads_km : ℚ
  roads_km_per_km2 : ℚ
  buildings_count : ℕ
  buildings_per_km2 : ℚ
  intersections_per_km2 : ℚ
  hospitals_per_km2 : ℚ
  schools_per_km2 : ℚ
  SocioEconScore : ℚ
deriving DecidableEq

/-- The metric computation of `analyzeBBox` after the three fetches succeed
(script.js lines 270-319), parameterized by the abstract turf primitives.
`turfArea bboxl` is `area(bboxPolygon(bbox))` in square meters. -/
def computeMetrics (turfLen : Geometry → ℚ) (turfArea : List JsVal → ℚ)
    (bboxl : List JsVal) (roadsOs buildOs amenOs : OsmJson) : Metrics :=
  let roadsGeo := osmToGeoJSON roadsOs [ElType.way]
  let buildGeo := osmToGeoJSON buildOs [ElType.way]
  let amenGeo := osmToGeoJSON amenOs [ElType.node]
  let areaKm2 := turfArea bboxl / 1000000
  let road_km := lengthKm turfLen roadsGeo
  let road_km_per_km2 := if areaKm2 = 0 then 0 else road_km / areaKm2
  let bldg_count := buildGeo.features.length
  let bldg_per_km2 := if areaKm2 = 0 then 0 else (bldg_count : ℚ) / areaKm2
  let intxn_per_km2 := intersectionDensityPerKm2 roadsGeo areaKm2
  let hospitals := hospitalsOf amenGeo
  let schools := schoolsOf amenGeo
  let hosp_per_km2 := pointDensityPerKm2 hospitals areaKm2
  let school_per_km2 := pointDensityPerKm2 schools areaKm2
  let infra := 0.5 * normClip road_km_per_km2 0 10 + 0.5 * normClip intxn_per_km2 0 200
  let access := 0.5 * normClip hosp_per_km2 0 5 + 0.5 * normClip school_per_km2 0 8
  let activity : ℚ := 0.0
  let green : ℚ := 0.0
  let socio := 100.0 * (0.35 * infra + 0.35 * access + 0.2 * activity + 0.1 * green)
  Metrics.mk (toFixed 3 areaKm2) (toFixed 3 road_km) (toFixed 3 road_km_per_km2)
    bldg_count (toFixed 3 bldg_per_km2) (toFixed 3 intxn_per_km2)
    (toFixed 4 hosp_per_km2) (toFixed 4 school_per_km2) (toFixed 1 socio)

/-- The bbox validation of script.js lines 240-242: the argument must be an
array (`none` models any non-array value) of length exactly 4.  Entries are
not inspected. -/
def validateBBox (bbox : Option (List JsVal)) : Bool :=
  match bbox with
  | some l => l.length == 4
  | none => false

/-- The error outcomes of `analyzeBBox`: the bbox validation failure, or a
fetch failure propagated out of `Promise.all`. -/
inductive AnalyzeError (E : Type) where
  | validation
  | fetch (e : E)
deriving DecidableEq

/-- `Promise.all` over the three settled fetch outcomes: succeeds with the
triple when all three succeed, otherwise rejects with the error of a failing
fetch (with a single failure this is the error of that failure). -/
def promiseAll3 {E α β γ : Type} :
    Except E α → Except E β → Except E γ → Except E (α × β × γ)
  | Except.ok x, Except.ok y, Except.ok z => Except.ok (x, y, z)
  | Except.error e, _, _ => Except.error e
  | Except.ok _, Except.error e, _ => Except.error e
  | Except.ok _, Except.ok _, Except.error e => Except.error e

/-- `analyzeBBox(bbox, options)` (script.js lines 232-327) over the settled
outcomes of the three Overpass fetches: validation happens first and
consults no fetch outcome; then the three fetches are joined all-or-fail;
then the metrics are computed. -/
def analyzeBBox {E : Type} (turfLen : Geometry → ℚ) (turfArea : List JsVal → ℚ)
    (bbox : Option (List JsVal)) (roadsR buildR amenR : Except E OsmJson) :
    Except (AnalyzeError E) Metrics :=
  if validateBBox bbox then
    match promiseAll3 roadsR buildR amenR with
    | Except.error e => Except.error (AnalyzeError.fetch e)
    | Except.ok (roadsOs, buildOs, amenOs) =>
        Except.ok (computeMetrics turfLen turfArea (bbox.getD []) roadsOs buildOs amenOs)
  else Except.error AnalyzeError.validation

/-- The retry loop of `overpass(query, retries, pauseMs)` (script.js lines
33-50), with `f i` the settled outcome of the i-th POST attempt and
`remaining = retries - attempt` the number of attempts still allowed after
the current one (the pause between attempts has no observable effect on the
returned value). -/
def overpassGo {E A : Type} (f : ℕ → Except E A) : ℕ → ℕ → Except E A
  | attempt, remaining =>
    match f attempt with
    | Except.ok v => Except.ok v
    | Except.error e =>
      match remaining with
      | 0 => Except.error e
      | r + 1 => overpassGo f (attempt + 1) r

/-- `overpass(query, retries)`: run the attempt loop from attempt 0. -/
def overpass {E A : Type} (f : ℕ → Except E A) (retries : ℕ) : Except E A :=
  overpassGo f 0 retries

/-! ## Helper lemmas -/

theorem normClip_nonneg (x a b : ℚ) : 0 ≤ normClip x a b :=
  le_max_left 0 _

theorem normClip_le_one (x a b : ℚ) : normClip x a b ≤ 1 :=
  max_le zero_le_one (min_le_left 1 _)

theorem toFixed_one_mem (q : ℚ) (h0 : 0 ≤ q) (h70 : q ≤ 70) :
    0 ≤ toFixed 1 q ∧ toFixed 1 q ≤ 70 := by
  unfold toFixed jsRound
  constructor
  · apply div_nonneg _ (by norm_num)
    have hz : (0 : ℤ) ≤ ⌊q * 10 ^ 1 + 1 / 2⌋ := Int.le_floor.mpr (by push_cast; nlinarith)
    exact_mod_cast hz
  · rw [div_le_iff (by norm_num : (0:ℚ) < 10 ^ 1)]
    have hle : ⌊q * 10 ^ 1 + 1 / 2⌋ ≤ ⌊(1401 : ℚ) / 2⌋ := Int.floor_mono (by nlinarith)
    have h700 : ⌊(1401 : ℚ) / 2⌋ = 700 := by norm_num
    rw [h700] at hle
    have hcast : (⌊q * 10 ^ 1 + 1 / 2⌋ : ℚ) ≤ 700 := by exact_mod_cast hle
    nlinarith

theorem socio_term_mem (r i h s : ℚ) :
    0 ≤ toFixed 1 (100.0 * (0.35 * (0.5 * normClip r 0 10 + 0.5 * normClip i 0 200) +
        0.35 * (0.5 * normClip h 0 5 + 0.5 * normClip s 0 8) + 0.2 * 0.0 + 0.1 * 0.0)) ∧
      toFixed 1 (100.0 * (0.35 * (0.5 * normClip r 0 10 + 0.5 * normClip i 0 200) +
        0.35 * (0.5 * normClip h 0 5 + 0.5 * normClip s 0 8) + 0.2 * 0.0 + 0.1 * 0.0)) ≤ 70 := by
  have b1 := normClip_nonneg r 0 10
  have c1 := normClip_le_one r 0 10
  have b2 := normClip_nonneg i 0 200
  have c2 := normClip_le_one i 0 200
  have b3 := normClip_nonneg h 0 5
  have c3 := normClip_le_one h 0 5
  have b4 := normClip_nonneg s 0 8
  have c4 := normClip_le_one s 0 8
  apply toFixed_one_mem
  · nlinarith
  · nlinarith

theorem computeMetrics_score_mem (turfLen : Geometry → ℚ) (turfArea : List JsVal → ℚ)
    (bboxl : List JsVal) (ro bo ao : OsmJson) :
    0 ≤ (computeMetrics turfLen turfArea bboxl ro bo ao).SocioEconScore ∧
      (computeMetrics turfLen turfArea bboxl ro bo ao).SocioEconScore ≤ 70 := by
  simp only [computeMetrics]
  exact socio_term_mem _ _ _ _

/-! ## C1 -/

/-- C1: for every bbox and all fetched payloads (and any behavior of the
abstract turf primitives), when analyzeBBox returns a Metrics record, its
SocioEconScore field lies in the closed interval [0, 100]: each weighted
normClip sub-score term is bounded in [0, 1] before the scaling by 100. -/
theorem analyzeBBox_score_in_range {E : Type} (turfLen : Geometry → ℚ)
    (turfArea : List JsVal → ℚ) (bbox : Option (List JsVal))
    (roadsR buildR amenR : Except E OsmJson) (m : Metrics)
    (hok : analyzeBBox turfLen turfArea bbox roadsR buildR amenR = Except.ok m) :
    0 ≤ m.SocioEconScore ∧ m.SocioEconScore ≤ 100 := by
  unfold analyzeBBox at hok
  split at hok
  · split at hok
    · exact absurd hok (by simp)
    · injection hok with hm
      subst hm
      exact ⟨(computeMetrics_score_mem _ _ _ _ _ _).1,
        le_trans (computeMetrics_score_mem _ _ _ _ _ _).2 (by norm_num)⟩
  · exact absurd hok (by simp)

/-- C1 witness: a concrete run of analyzeBBox (zero turf primitives, empty
payloads) returns a Metrics record whose score the theorem bounds. -/
theorem analyzeBBox_score_in_range_witness :
    0 ≤ (computeMetrics (fun _ => 0) (fun _ => 0)
        [JsVal.num 0, JsVal.num 0, JsVal.num 0, JsVal.num 0]
        (OsmJson.mk []) (OsmJson.mk []) (OsmJson.mk [])).SocioEconScore ∧
      (computeMetrics (fun _ => 0) (fun _ => 0)
        [JsVal.num 0, JsVal.num 0, JsVal.num 0, JsVal.num 0]
        (OsmJson.mk []) (OsmJson.mk []) (OsmJson.mk [])).SocioEconScore ≤ 100 :=
  analyzeBBox_score_in_range (fun _ => 0) (fun _ => 0)
    (some [JsVal.num 0, JsVal.num 0, JsVal.num 0, JsVal.num 0])
    (Except.ok (OsmJson.mk []) : Except Unit OsmJson) (Except.ok (OsmJson.mk []))
    (Except.ok (OsmJson.mk [])) _ rfl

/-! ## C2 -/

/-- C2 counterexample: the claim says normClip(x, a, b) = 1 whenever x ≥ b,
but at x = b = 10, a = 0 the value is 10 / (10 + 1e-9), strictly below 1. -/
theorem normClip_at_upper_edge_ne_one : (10:ℚ) ≥ 10 ∧ normClip 10 0 10 ≠ 1 := by
  constructor
  · exact le_refl 10
  · unfold normClip
    have ht : ((10:ℚ) - 0) / (10 - 0 + 1e-9) < 1 := by norm_num
    have ht0 : (0:ℚ) ≤ ((10:ℚ) - 0) / (10 - 0 + 1e-9) := by norm_num
    rw [min_eq_right ht.le, max_eq_right ht0]
    exact ne_of_lt ht

/-- C2 (amended): normClip(x, a, b) always lies in [0, 1]; when a ≤ b it
equals 0 for x ≤ a, equals 1 for x ≥ b + 1e-9 (not for every x ≥ b: the
epsilon in the denominator keeps the value just below 1 on [b, b + 1e-9)),
equals the linear function (x - a) / (b - a + 1e-9) on a ≤ x ≤ b, and is
monotonically non-decreasing in x. -/
theorem normClip_clamp_spec (x a b : ℚ) :
    (0 ≤ normClip x a b ∧ normClip x a b ≤ 1)
    ∧ (a ≤ b → x ≤ a → normClip x a b = 0)
    ∧ (a ≤ b → b + 1e-9 ≤ x → normClip x a b = 1)
    ∧ (a ≤ b → a ≤ x → x ≤ b → normClip x a b = (x - a) / (b - a + 1e-9))
    ∧ (a ≤ b → ∀ y, x ≤ y → normClip x a b ≤ normClip y a b) := by
  have heps : (0:ℚ) < 1e-9 := by norm_num
  refine ⟨⟨normClip_nonneg x a b, normClip_le_one x a b⟩, ?_, ?_, ?_, ?_⟩
  · intro hab hxa
    have hd : (0:ℚ) < b - a + 1e-9 := by linarith
    have ht : (x - a) / (b - a + 1e-9) ≤ 0 := (div_le_iff hd).mpr (by linarith)
    unfold normClip
    rw [min_eq_right (ht.trans zero_le_one), max_eq_left ht]
  · intro hab hbx
    have hd : (0:ℚ) < b - a + 1e-9 := by linarith
    have ht : (1:ℚ) ≤ (x - a) / (b - a + 1e-9) := (le_div_iff hd).mpr (by linarith)
    unfold normClip
    rw [min_eq_left ht, max_eq_right zero_le_one]
  · intro hab hax hxb
    have hd : (0:ℚ) < b - a + 1e-9 := by linarith
    have ht0 : (0:ℚ) ≤ (x - a) / (b - a + 1e-9) := div_nonneg (by linarith) hd.le
    have ht1 : (x - a) / (b - a + 1e-9) ≤ 1 := (div_le_iff hd).mpr (by linarith)
    unfold normClip
    rw [min_eq_right ht1, max_eq_right ht0]
  · intro hab y hxy
    have hd : (0:ℚ) < b - a + 1e-9 := by linarith
    unfold normClip
    have hdiv : (x - a) / (b - a + 1e-9) ≤ (y - a) / (b - a + 1e-9) :=
      (div_le_div_right hd).mpr (by linarith)
    exact max_le_max (le_refl 0) (min_le_min (le_refl 1) hdiv)

/-- C2 witness: the amended theorem applied at x = -1, a = 0, b = 10. -/
theorem normClip_clamp_spec_witness : normClip (-1) 0 10 = 0 :=
  (normClip_clamp_spec (-1) 0 10).2.1 (by norm_num) (by norm_num)

/-! ## C9 -/

/-- C9: every Metrics record returned by analyzeBBox has SocioEconScore at
most 70: the activity and green sub-scores are hardcoded to 0 and carry
combined weight 0.3, so even with infra and access both at 1 the score is
100 * 0.7. -/
theorem analyzeBBox_score_le_seventy {E : Type} (turfLen : Geometry → ℚ)
    (turfArea : List JsVal → ℚ) (bbox : Option (List JsVal))
    (roadsR buildR amenR : Except E OsmJson) (m : Metrics)
    (hok : analyzeBBox turfLen turfArea bbox roadsR buildR amenR = Except.ok m) :
    m.SocioEconScore ≤ 70 := by
  unfold analyzeBBox at hok
  split at hok
  · split at hok
    · exact absurd hok (by simp)
    · injection hok with hm
      subst hm
      exact (computeMetrics_score_mem _ _ _ _ _ _).2
  · exact absurd hok (by simp)

/-- C9 witness: a concrete run of analyzeBBox returning a Metrics record,
to which the bound applies. -/
theorem analyzeBBox_score_le_seventy_witness :
    (computeMetrics (fun _ => 0) (fun _ => 1)
        [JsVal.num 1, JsVal.num 2, JsVal.num 3, JsVal.num 4]
        (OsmJson.mk []) (OsmJson.mk []) (OsmJson.mk [])).SocioEconScore ≤ 70 :=
  analyzeBBox_score_le_seventy (fun _ => 0) (fun _ => 1)
    (some [JsVal.num 1, JsVal.num 2, JsVal.num 3, JsVal.num 4])
    (Except.ok (OsmJson.mk []) : Except Unit OsmJson) (Except.ok (OsmJson.mk []))
    (Except.ok (OsmJson.mk [])) _ rfl

/-! ## C3 -/

/-- C3 counterexample: a 4-element bbox array containing a non-numeric entry
passes the validation of script.js lines 240-242 (only array-ness and length
are checked), so no ValidationError is raised and the call proceeds past
validation. -/
theorem validateBBox_accepts_non_numeric :
    validateBBox (some [JsVal.num 0, JsVal.num 0, JsVal.num 0, JsVal.str "x"]) = true ∧
    analyzeBBox (fun _ => 0) (fun _ => 0)
        (some [JsVal.num 0, JsVal.num 0, JsVal.num 0, JsVal.str "x"])
        (Except.ok (OsmJson.mk []) : Except Unit OsmJson) (Except.ok (OsmJson.mk []))
        (Except.ok (OsmJson.mk [])) ≠ Except.error AnalyzeError.validation := by
  constructor
  · rfl
  · intro hcontra
    have h2 : (Except.ok (computeMetrics (fun _ => 0) (fun _ => 0)
        [JsVal.num 0, JsVal.num 0, JsVal.num 0, JsVal.str "x"]
        (OsmJson.mk []) (OsmJson.mk []) (OsmJson.mk []))
          : Except (AnalyzeError Unit) Metrics) = Except.error AnalyzeError.validation := hcontra
    exact Except.noConfusion h2

/-- C3 (amended): analyzeBBox fails with ValidationError, before consulting
any fetch outcome, exactly when the bbox argument is not a 4-element array;
the entries themselves are never type-checked, so a 4-element array with
non-numeric entries proceeds to the fetch stage. -/
theorem analyzeBBox_validation_exact {E : Type} (turfLen : Geometry → ℚ)
    (turfArea : List JsVal → ℚ) (bbox : Option (List JsVal))
    (roadsR buildR amenR : Except E OsmJson) :
    (analyzeBBox turfLen turfArea bbox roadsR buildR amenR =
        Except.error AnalyzeError.validation ↔ validateBBox bbox = false)
    ∧ (validateBBox bbox = true ↔ ∃ l, bbox = some l ∧ l.length = 4)
    ∧ (validateBBox bbox = false →
        analyzeBBox turfLen turfArea bbox roadsR buildR amenR =
          Except.error AnalyzeError.validation) := by
  refine ⟨?_, ?_, ?_⟩
  · cases hv : validateBBox bbox with
    | false => simp [analyzeBBox, hv]
    | true =>
      constructor
      · intro hcontra
        exfalso
        revert hcontra
        cases hpa : promiseAll3 roadsR buildR amenR with
        | error e => simp [analyzeBBox, hv, hpa]
        | ok t =>
          obtain ⟨x, y, z⟩ := t
          simp [analyzeBBox, hv, hpa]
      · intro hcontra
        exact absurd hcontra (by simp)
  · cases bbox with
    | none => simp [validateBBox]
    | some l => simp [validateBBox]
  · intro hv
    simp [analyzeBBox, hv]

/-- C3 witness: a non-array bbox argument is rejected with ValidationError
whatever the fetch outcomes are. -/
theorem analyzeBBox_validation_exact_witness :
    analyzeBBox (fun _ => 0) (fun _ => 0) none
        (Except.ok (OsmJson.mk []) : Except Unit OsmJson) (Except.ok (OsmJson.mk []))
        (Except.ok (OsmJson.mk [])) = Except.error AnalyzeError.validation :=
  (analyzeBBox_validation_exact (fun _ => 0) (fun _ => 0) none
      (Except.ok (OsmJson.mk []) : Except Unit OsmJson) (Except.ok (OsmJson.mk []))
      (Except.ok (OsmJson.mk []))).2.2 rfl

/-! ## C4 -/

theorem overpassGo_succeeds {E A : Type} (f : ℕ → Except E A) (v : A) :
    ∀ (k attempt remaining : ℕ), k ≤ remaining →
      (∀ i, i < k → ∃ e, f (attempt + i) = Except.error e) →
      f (attempt + k) = Except.ok v →
      overpassGo f attempt remaining = Except.ok v := by
  intro k
  induction k with
  | zero =>
    intro attempt remaining _ _ hok
    rw [Nat.add_zero] at hok
    cases remaining <;> simp [overpassGo, hok]
  | succ k ih =>
    intro attempt remaining hk hfail hok
    obtain ⟨e, he⟩ := hfail 0 (by omega)
    rw [Nat.add_zero] at he
    cases remaining with
    | zero => omega
    | succ r =>
      have hrec : overpassGo f (attempt + 1) r = Except.ok v := by
        apply ih (attempt + 1) r (by omega)
        · intro i hi
          obtain ⟨e2, he2⟩ := hfail (i + 1) (by omega)
          exact ⟨e2, by rw [show attempt + 1 + i = attempt + (i + 1) by omega]; exact he2⟩
        · rw [show attempt + 1 + k = attempt + (k + 1) by omega]
          exact hok
      simp [overpassGo, he, hrec]

theorem overpassGo_exhausts {E A : Type} (f : ℕ → Except E A) (errs : ℕ → E) :
    ∀ (remaining attempt : ℕ),
      (∀ i, i ≤ remaining → f (attempt + i) = Except.error (errs (attempt + i))) →
      overpassGo f attempt remaining = Except.error (errs (attempt + remaining)) := by
  intro remaining
  induction remaining with
  | zero =>
    intro attempt h
    have h0 := h 0 (Nat.le_refl 0)
    rw [Nat.add_zero] at h0 ⊢
    simp [overpassGo, h0]
  | succ r ih =>
    intro attempt h
    have h0 := h 0 (Nat.zero_le _)
    rw [Nat.add_zero] at h0
    have hrec := ih (attempt + 1) (fun i hi => by
      rw [show attempt + 1 + i = attempt + (i + 1) by omega]
      exact h (i + 1) (by omega))
    rw [show attempt + 1 + r = attempt + (r + 1) by omega] at hrec
    simp [overpassGo, h0, hrec]

/-- C4: the retry loop of overpass with retry budget r: if the first k
attempts fail (k ≤ r) and attempt k succeeds with payload v, the call
returns v unchanged; if all r + 1 attempts fail, the call throws the error
of the last attempt. -/
theorem overpass_retry_contract (E A : Type) (f : ℕ → Except E A) (r : ℕ) :
    (∀ (k : ℕ) (v : A), k ≤ r →
        (∀ i, i < k → ∃ e, f i = Except.error e) → f k = Except.ok v →
        overpass f r = Except.ok v)
    ∧ (∀ errs : ℕ → E, (∀ i, i ≤ r → f i = Except.error (errs i)) →
        overpass f r = Except.error (errs r)) := by
  constructor
  · intro k v hk hfail hok
    have h := overpassGo_succeeds f v k 0 r hk
      (fun i hi => by simpa using hfail i hi)
      (by simpa using hok)
    simpa [overpass] using h
  · intro errs hall
    have h := overpassGo_exhausts f errs r 0 (fun i hi => by simpa using hall i hi)
    simpa [overpass] using h

/-- C4 witness: with one configured retry, a first attempt failing and a
second succeeding with 7 makes overpass return 7. -/
theorem overpass_retry_contract_witness :
    overpass (fun i => if i = 0 then (Except.error "boom" : Except String ℕ) else Except.ok 7) 1 =
      Except.ok 7 :=
  (overpass_retry_contract String ℕ
      (fun i => if i = 0 then Except.error "boom" else Except.ok 7) 1).1 1 7 (Nat.le_refl 1)
    (fun i hi => ⟨"boom", by
      have h0 : i = 0 := by omega
      simp [h0]⟩)
    (by simp)

/-! ## C5 -/

/-- C5: when the bbox validates, a failure of any single one of the three
fetches (roads, buildings, amenities) makes analyzeBBox fail with that
error of that fetch and produce no Metrics, even though the other two succeeded. -/
theorem analyzeBBox_join_all_or_fail {E : Type} (turfLen : Geometry → ℚ)
    (turfArea : List JsVal → ℚ) (bbox : Option (List JsVal))
    (hv : validateBBox bbox = true) (e : E) (ro bo ao : OsmJson) :
    analyzeBBox turfLen turfArea bbox (Except.error e) (Except.ok bo) (Except.ok ao) =
        Except.error (AnalyzeError.fetch e)
    ∧ analyzeBBox turfLen turfArea bbox (Except.ok ro) (Except.error e) (Except.ok ao) =
        Except.error (AnalyzeError.fetch e)
    ∧ analyzeBBox turfLen turfArea bbox (Except.ok ro) (Except.ok bo) (Except.error e) =
        Except.error (AnalyzeError.fetch e) := by
  refine ⟨?_, ?_, ?_⟩ <;> simp [analyzeBBox, promiseAll3, hv]

/-- C5 witness: a concrete failing roads fetch aborts the whole call. -/
theorem analyzeBBox_join_all_or_fail_witness :
    analyzeBBox (fun _ => 0) (fun _ => 0)
        (some [JsVal.num 0, JsVal.num 1, JsVal.num 2, JsVal.num 3])
        (Except.error "down" : Except String OsmJson) (Except.ok (OsmJson.mk []))
        (Except.ok (OsmJson.mk [])) = Except.error (AnalyzeError.fetch "down") :=
  (analyzeBBox_join_all_or_fail (fun _ => 0) (fun _ => 0)
      (some [JsVal.num 0, JsVal.num 1, JsVal.num 2, JsVal.num 3]) rfl "down"
      (OsmJson.mk []) (OsmJson.mk []) (OsmJson.mk [])).1

/-! ## C6 -/

/-- C6: intersectionDensityPerKm2 counts one intersection per quantized cell
(lon and lat scaled by 10000 and rounded) reached by at least 3 vertices and
divides by the area; in particular with exactly one such cell and a positive
area A the result is 1 / A. -/
theorem intersectionDensity_cells (fc : FeatureCollection) (A : ℚ) (hA : 0 < A) :
    (quantPts fc ≠ [] →
      intersectionDensityPerKm2 fc A = (countIntersections (quantPts fc) : ℚ) / A)
    ∧ (countIntersections (quantPts fc) = 1 → intersectionDensityPerKm2 fc A = 1 / A) := by
  have hA0 : A ≠ 0 := ne_of_gt hA
  constructor
  · intro hne
    simp [intersectionDensityPerKm2, hA0, hne]
  · intro h1
    have hne : quantPts fc ≠ [] := by
      intro he
      rw [he] at h1
      simp [countIntersections] at h1
    simp [intersectionDensityPerKm2, hA0, hne, h1]

/-- C6 witness: a single LineString whose three distinct vertices all
quantize to the cell (0, 0), over an area of 2 square kilometers, yields a
density of 1/2. -/
theorem intersectionDensity_cells_witness :
    intersectionDensityPerKm2
      (FeatureCollection.mk [Feature.mk
        (Geometry.lineString [(1/100000, 0), (2/100000, 0), (3/100000, 0)]) []]) 2 = 1/2 := by
  have hq : quantPts (FeatureCollection.mk [Feature.mk
      (Geometry.lineString [(1/100000, 0), (2/100000, 0), (3/100000, 0)]) []]) =
      [(0, 0), (0, 0), (0, 0)] := by
    norm_num [quantPts, jsRound]
  exact (intersectionDensity_cells
    (FeatureCollection.mk [Feature.mk
      (Geometry.lineString [(1/100000, 0), (2/100000, 0), (3/100000, 0)]) []]) 2
    (by norm_num)).2 (by rw [hq]; decide)

/-! ## Properties-merge helpers -/

theorem objLookup_map_str (tags : List (String × String)) (k : String) :
    objLookup (tags.map (fun kv => (kv.1, JsVal.str kv.2))) k =
      Option.map JsVal.str (lookupLast tags k) := by
  induction tags with
  | nil => rfl
  | cons kv rest ih =>
    simp only [List.map_cons, objLookup, lookupLast, ih]
    cases h : lookupLast rest k with
    | some v => simp
    | none =>
      simp only [Option.map_none]
      by_cases hk : kv.1 = k <;> simp [hk]

theorem objLookup_mkProps_id (i : ℤ) (tags : List (String × String)) :
    objLookup (mkProps i tags) "id" =
      some (Option.elim (lookupLast tags "id") (JsVal.num (i : ℚ)) JsVal.str) := by
  simp only [mkProps, objLookup, objLookup_map_str]
  cases h : lookupLast tags "id" with
  | some v => simp
  | none => simp

theorem objLookup_mkProps_ne_id (i : ℤ) (tags : List (String × String)) (k : String)
    (hk : k ≠ "id") :
    objLookup (mkProps i tags) k = Option.map JsVal.str (lookupLast tags k) := by
  simp only [mkProps, objLookup, objLookup_map_str]
  cases h : lookupLast tags k with
  | some v => simp
  | none => simp [Ne.symm hk]

theorem convertEl_props (el : OsmElement) (f : Feature) (h : convertEl el = some f) :
    f.properties = mkProps el.id el.tags := by
  cases hty : el.type with
  | node =>
    simp only [convertEl, hty, Option.some.injEq] at h
    rw [← h]
  | way =>
    cases hg : el.geometry with
    | none => simp [convertEl, hty, hg] at h
    | some g =>
      simp only [convertEl, hty, hg] at h
      split at h <;> (injection h with h2; rw [← h2])
  | relation => simp [convertEl, hty] at h

/-! ## C7 -/

/-- C7: a way element whose tag mapping contains a building key with a
truthy (non-empty) value, and whose geometry array is nonempty with n
vertices, converts to a Polygon feature with a single ring of n + 1
coordinates obtained by re-appending the first coordinate; the first
and last coordinate coincide. -/
theorem building_way_closed_ring (el : OsmElement) (g : List OsmPt) (s : String)
    (htype : el.type = ElType.way) (hgeom : el.geometry = some g) (hne : g ≠ [])
    (hb : lookupLast el.tags "building" = some s) (hs : s ≠ "") :
    ∃ ring : List (ℚ × ℚ),
      convertEl el = some (Feature.mk (Geometry.polygon [ring]) (mkProps el.id el.tags)) ∧
      ring.length = g.length + 1 ∧ ring.head? = ring.getLast? := by
  have hbuild : isBuilding (mkProps el.id el.tags) = true := by
    unfold isBuilding
    rw [objLookup_mkProps_ne_id el.id el.tags "building" (by decide), hb]
    simp [truthy, hs]
  cases g with
  | nil => exact absurd rfl hne
  | cons p rest =>
    refine ⟨((p.lon, p.lat) :: rest.map (fun q => (q.lon, q.lat))) ++ [(p.lon, p.lat)],
      ?_, ?_, ?_⟩
    · simp [convertEl, htype, hgeom, hbuild]
    · simp
    · rw [List.getLast?_concat]
      simp

/-- C7 witness: a concrete building way with 3 vertices closes into a ring
of 4 coordinates. -/
theorem building_way_closed_ring_witness :
    ∃ ring : List (ℚ × ℚ),
      convertEl (OsmElement.mk ElType.way 7 [("building", "yes")] 0 0
          (some [OsmPt.mk 0 0, OsmPt.mk 0 1, OsmPt.mk 1 1])) =
        some (Feature.mk (Geometry.polygon [ring]) (mkProps 7 [("building", "yes")])) ∧
      ring.length = 3 + 1 ∧ ring.head? = ring.getLast? :=
  building_way_closed_ring
    (OsmElement.mk ElType.way 7 [("building", "yes")] 0 0
      (some [OsmPt.mk 0 0, OsmPt.mk 0 1, OsmPt.mk 1 1]))
    [OsmPt.mk 0 0, OsmPt.mk 0 1, OsmPt.mk 1 1] "yes"
    rfl rfl (by decide) rfl (by decide)

/-! ## C8 -/

/-- C8: every feature produced by osmToGeoJSON carries the properties object
mkProps id tags of its source element; in that object the key "id" resolves
to the element id unless a tag literally named "id" overwrites it (tags are
merged after the id), and every other key resolves exactly to its tag
value. -/
theorem osm_properties_merge :
    (∀ (osm : OsmJson) (types : List ElType) (f : Feature),
        f ∈ (osmToGeoJSON osm types).features →
        ∃ el, el ∈ osm.elements ∧ f.properties = mkProps el.id el.tags)
    ∧ (∀ (i : ℤ) (tags : List (String × String)),
        objLookup (mkProps i tags) "id" =
          some (Option.elim (lookupLast tags "id") (JsVal.num (i : ℚ)) JsVal.str))
    ∧ (∀ (i : ℤ) (tags : List (String × String)) (k : String), k ≠ "id" →
        objLookup (mkProps i tags) k = Option.map JsVal.str (lookupLast tags k)) := by
  refine ⟨?_, objLookup_mkProps_id, objLookup_mkProps_ne_id⟩
  intro osm types f hf
  simp only [osmToGeoJSON, List.mem_filterMap] at hf
  obtain ⟨el, hel, hconv⟩ := hf
  exact ⟨el, (List.mem_filter.mp hel).1, convertEl_props el f hconv⟩

/-- C8 witness: in a concrete properties object, a non-id key resolves to
its tag value. -/
theorem osm_properties_merge_witness :
    objLookup (mkProps 5 [("amenity", "school")]) "amenity" = some (JsVal.str "school") :=
  osm_properties_merge.2.2 5 [("amenity", "school")] "amenity" (by decide)

/-! ## C10 -/

/-- C10: the hospital and school collections used for the amenity densities
keep exactly the features whose amenity property lowercases to "hospital"
respectively "school"; features whose amenity is "clinic" or "university",
or which have no amenity property at all (public-transport stations and bus
stops), are never counted in either. -/
theorem amenity_filter_exact :
    (∀ (fc : FeatureCollection) (f : Feature),
        f ∈ (hospitalsOf fc).features ↔
          f ∈ fc.features ∧ amenityLower f.properties = "hospital")
    ∧ (∀ (fc : FeatureCollection) (f : Feature),
        f ∈ (schoolsOf fc).features ↔
          f ∈ fc.features ∧ amenityLower f.properties = "school")
    ∧ (∀ (fc : FeatureCollection) (f : Feature), f ∈ fc.features →
        (objLookup f.properties "amenity" = some (JsVal.str "clinic") ∨
         objLookup f.properties "amenity" = some (JsVal.str "university") ∨
         objLookup f.properties "amenity" = none) →
        f ∉ (hospitalsOf fc).features ∧ f ∉ (schoolsOf fc).features) := by
  refine ⟨?_, ?_, ?_⟩
  · intro fc f
    simp [hospitalsOf, List.mem_filter]
  · intro fc f
    simp [schoolsOf, List.mem_filter]
  · intro fc f hf hcase
    constructor
    · intro hc
      have hhosp : amenityLower f.properties = "hospital" := by
        have := (List.mem_filter.mp hc).2
        simpa using this
      rcases hcase with h1 | h1 | h1 <;>
        (simp only [amenityLower, h1] at hhosp; exact absurd hhosp (by decide))
    · intro hc
      have hsch : amenityLower f.properties = "school" := by
        have := (List.mem_filter.mp hc).2
        simpa using this
      rcases hcase with h1 | h1 | h1 <;>
        (simp only [amenityLower, h1] at hsch; exact absurd hsch (by decide))

/-- C10 witness: a concrete clinic point feature is excluded from both the
hospital and the school collections. -/
theorem amenity_filter_exact_witness :
    Feature.mk (Geometry.point (0, 0)) (mkProps 1 [("amenity", "clinic")]) ∉
        (hospitalsOf (FeatureCollection.mk
          [Feature.mk (Geometry.point (0, 0)) (mkProps 1 [("amenity", "clinic")])])).features ∧
      Feature.mk (Geometry.point (0, 0)) (mkProps 1 [("amenity", "clinic")]) ∉
        (schoolsOf (FeatureCollection.mk
          [Feature.mk (Geometry.point (0, 0)) (mkProps 1 [("amenity", "clinic")])])).features :=
  amenity_filter_exact.2.2
    (FeatureCollection.mk
      [Feature.mk (Geometry.point (0, 0)) (mkProps 1 [("amenity", "clinic")])])
    (Feature.mk (Geometry.point (0, 0)) (mkProps 1 [("amenity", "clinic")]))
    (List.mem_singleton.mpr rfl) (Or.inl (by decide))
